import Mathlib

/-!
Shallow embedding of `src/app.py` (research & YouTube-script generator).

The repository's core is three Python functions:
* `create_agent(role, instructions)` — builds a `phi` Agent, returning `None`
  on any construction error (lines 16-31);
* `safe_run_agent(agent, input_text)` — invokes the agent and normalizes the
  response into a string, with a fallback path for the known
  `model_dump` `AttributeError` (lines 33-53);
* `main()` — the Streamlit button handler orchestrating
  research → script (lines 75-119); the spec calls this contract `generate`.

The remote `phi` library is opaque: we model an initialized agent as a pair of
oracles (`run` for `agent.run`, `chat` for `agent.model.chat`), each of which
either returns a value or raises, exactly the distinctions the Python code
observes.  Call traces (the list of inputs passed to each oracle) are threaded
explicitly so that zero-call / exactly-once claims are provable.
-/

namespace App

/-- The response object returned by `agent.run`: the code only observes
whether it `hasattr 'content'` (and if so the `content` string) and its
`str(response)` rendering (src/app.py line 40). -/
structure Response where
  content : Option String
  asString : String
deriving DecidableEq, Repr

/-- Outcome of a Python call to `agent.run(input_text)`: a normal return, an
`AttributeError` with message `msg`, or any other exception with message
`msg` (src/app.py lines 39, 41, 51). -/
inductive RunOutcome where
  | ok (response : Response)
  | attrError (msg : String)
  | otherError (msg : String)
deriving DecidableEq, Repr

/-- Outcome of the lower-level fallback call `agent.model.chat(input_text)`:
a normal return (observed only through `str(response)`) or an exception with
message `msg` (src/app.py lines 46-48). -/
inductive ChatOutcome where
  | ok (asString : String)
  | chatError (msg : String)
deriving DecidableEq, Repr

/-- An initialized agent handle, modelled by what the code can do with it:
call `agent.run` or `agent.model.chat`.  The Python value `None` returned by
`create_agent` on failure is modelled as `Option.none` around this type. -/
structure AgentBehavior where
  run : String → RunOutcome
  chat : String → ChatOutcome

/-- Python's substring test `needle in haystack` on character lists. -/
def containsSeq (needle : List Char) : List Char → Bool
  | [] => needle.isEmpty
  | c :: rest => needle.isPrefixOf (c :: rest) || containsSeq needle rest

/-- Python's `needle in haystack` for strings (used at src/app.py line 43). -/
def pyContains (needle haystack : String) : Bool :=
  containsSeq needle.data haystack.data

/-- Python's `s.startswith(pre)` (used at src/app.py lines 82 and 90). -/
def pyStartswith (s pre : String) : Bool :=
  pre.data.isPrefixOf s.data

/-- What one call to `safe_run_agent` returned and which remote calls it made:
`result` is the returned Python value (`none` models Python `None`, reachable
through the implicit fall-through of the `except AttributeError` branch),
`runCalls` / `chatCalls` list the inputs passed to `agent.run` /
`agent.model.chat`. -/
structure RunTrace where
  result : Option String
  runCalls : List String
  chatCalls : List String
deriving DecidableEq, Repr

/-- Embedding of `safe_run_agent` (src/app.py lines 33-53).
`agent = none` models the `agent is None` check; otherwise `agent.run` is
called once with `input_text`.  On a normal return the content (or
`str(response)`) is returned; on an `AttributeError` whose message contains
`"model_dump"` the fallback `agent.model.chat(input_text)` is tried exactly
once; an `AttributeError` without that marker falls out of the `if` with no
`return`, i.e. Python returns `None`; any other exception yields
`"Error: <msg>"`. -/
def safe_run_agent (agent : Option AgentBehavior) (input_text : String) : RunTrace :=
  match agent with
  | none =>
      { result := some "Error: Agent not properly initialized",
        runCalls := [], chatCalls := [] }
  | some a =>
      match a.run input_text with
      | .ok response =>
          { result := some (match response.content with
              | some c => c
              | none => response.asString),
            runCalls := [input_text], chatCalls := [] }
      | .attrError msg =>
          if pyContains "model_dump" msg then
            match a.chat input_text with
            | .ok s =>
                { result := some s,
                  runCalls := [input_text], chatCalls := [input_text] }
            | .chatError inner =>
                { result := some ("Error processing request: " ++ inner),
                  runCalls := [input_text], chatCalls := [input_text] }
          else
            { result := none, runCalls := [input_text], chatCalls := [] }
      | .otherError msg =>
          { result := some ("Error: " ++ msg),
            runCalls := [input_text], chatCalls := [] }

/-- The configuration `create_agent` passes to the `Agent` constructor
(src/app.py lines 19-28): fixed model id and token ceiling, a DuckDuckGo
search tool only for the `"research"` role, the given instructions, and
markdown output. -/
structure AgentConfig where
  role : String
  modelId : String
  maxTokens : Nat
  hasSearchTool : Bool
  instructions : List String
  markdown : Bool
deriving DecidableEq, Repr

/-- The concrete configuration built by `create_agent` for a role. -/
def agentConfig (role : String) (instructions : List String) : AgentConfig :=
  { role := role,
    modelId := "meta-llama/Meta-Llama-3-8B-Instruct",
    maxTokens := 4096,
    hasSearchTool := role == "research",
    instructions := instructions,
    markdown := true }

/-- Embedding of `create_agent` (src/app.py lines 16-31).  The `Agent`
constructor is an oracle `binder` that either returns a handle or raises
(`Except.error msg`); the `try/except` converts any raise into `None`. -/
def create_agent (binder : AgentConfig → Except String AgentBehavior)
    (role : String) (instructions : List String) : Option AgentBehavior :=
  match binder (agentConfig role instructions) with
  | .ok a => some a
  | .error _ => none

/-- The two session agent handles used by `main` (src/app.py lines 59-68). -/
structure PipelineEnv where
  researchAgent : Option AgentBehavior
  scriptAgent : Option AgentBehavior

/-- The user-visible outcome of one click of the generate button:
the empty-topic warning (line 119), the top-level `except` message
(line 116), a research-stage error display (line 113), a script-stage error
display (line 111; the research text had already been rendered at
lines 83-84, so it is carried in the outcome), or full success with both
artifacts rendered and downloadable (lines 90-109). -/
inductive GenerateOutcome where
  | warning (msg : String)
  | unexpectedError (msg : String)
  | researchError (msg : String)
  | scriptError (researchText errorText : String)
  | success (researchText scriptText : String)
deriving DecidableEq, Repr

/-- Result of one pipeline run: the outcome plus the `safe_run_agent` trace of
each stage (`none` when the stage was never invoked). -/
structure GenerateTrace where
  outcome : GenerateOutcome
  researchTrace : Option RunTrace
  scriptTrace : Option RunTrace
deriving DecidableEq, Repr

/-- The message `st.error` shows when `safe_run_agent` returned Python `None`
and `main`'s `research_results.startswith("Error")` (or the script-stage
check) raises, landing in the top-level `except` of src/app.py line 115. -/
def noneAttrMsg : String :=
  "An unexpected error occurred: 'NoneType' object has no attribute 'startswith'"

/-- Embedding of the button-handler body of `main` (src/app.py lines 75-119),
the orchestrator the spec calls `generate`.  Python's `if query:` is string
truthiness, i.e. it rejects exactly the empty string; each stage's success is
decided by `not result.startswith("Error")`. -/
def generate (env : PipelineEnv) (query : String) : GenerateTrace :=
  if query = "" then
    { outcome := .warning "Please enter a research topic",
      researchTrace := none, scriptTrace := none }
  else
    let rt := safe_run_agent env.researchAgent query
    match rt.result with
    | none =>
        { outcome := .unexpectedError noneAttrMsg,
          researchTrace := some rt, scriptTrace := none }
    | some research_results =>
        if pyStartswith research_results "Error" then
          { outcome := .researchError research_results,
            researchTrace := some rt, scriptTrace := none }
        else
          let stt := safe_run_agent env.scriptAgent research_results
          match stt.result with
          | none =>
              { outcome := .unexpectedError noneAttrMsg,
                researchTrace := some rt, scriptTrace := some stt }
          | some script_content =>
              if pyStartswith script_content "Error" then
                { outcome := .scriptError research_results script_content,
                  researchTrace := some rt, scriptTrace := some stt }
              else
                { outcome := .success research_results script_content,
                  researchTrace := some rt, scriptTrace := some stt }

/-- A mock agent whose `run` always succeeds with content `text`. -/
def okAgent (text : String) : AgentBehavior :=
  { run := fun _ => .ok { content := some text, asString := text },
    chat := fun _ => .ok text }

/-- A mock agent whose `run` always raises a non-`AttributeError` exception
with message `msg`. -/
def errAgent (msg : String) : AgentBehavior :=
  { run := fun _ => .otherError msg,
    chat := fun _ => .ok "unused" }

/-- A mock agent whose `run` raises the known `model_dump` `AttributeError`
and whose fallback `chat` raises with message `msg`. -/
def bothFailAgent (msg : String) : AgentBehavior :=
  { run := fun _ => .attrError "'str' object has no attribute 'model_dump'",
    chat := fun _ => .chatError msg }

/-- A mock agent reproducing the known library defect: `run` raises the
`model_dump` `AttributeError`, while the lower-level `chat` call succeeds. -/
def modelDumpAgent : AgentBehavior :=
  { run := fun _ => .attrError "'str' object has no attribute 'model_dump'",
    chat := fun _ => .ok "fallback text" }

/-- A mock agent whose `run` raises an `AttributeError` whose message does
not mention `model_dump`. -/
def attrFailAgent : AgentBehavior :=
  { run := fun _ => .attrError "'RunResponse' object has no attribute 'foo'",
    chat := fun _ => .ok "unused" }

/-- A mock agent whose response exposes no `content` field, so only
`str(response)` is available. -/
def noContentAgent : AgentBehavior :=
  { run := fun _ => .ok { content := none, asString := "RunResponse(messages=[])" },
    chat := fun _ => .ok "unused" }

section Helpers

theorem isPrefixOf_append (l t : List Char) : l.isPrefixOf (l ++ t) = true := by
  induction l with
  | nil => simp [List.isPrefixOf]
  | cons a l ih => simp [List.isPrefixOf, ih]

theorem pyStartswith_of_data_eq (s pre : String) (t : List Char)
    (h : s.data = pre.data ++ t) : pyStartswith s pre = true := by
  unfold pyStartswith
  rw [h]
  exact isPrefixOf_append _ _

theorem pyStartswith_error_colon (msg : String) :
    pyStartswith ("Error: " ++ msg) "Error" = true := by
  apply pyStartswith_of_data_eq _ _ ([':', ' '] ++ msg.data)
  rw [String.data_append]
  rfl

theorem pyStartswith_error_processing (msg : String) :
    pyStartswith ("Error processing request: " ++ msg) "Error" = true := by
  apply pyStartswith_of_data_eq _ _ (" processing request: ".data ++ msg.data)
  rw [String.data_append]
  rfl

theorem runCalls_of_some (a : AgentBehavior) (input : String) :
    (safe_run_agent (some a) input).runCalls = [input] := by
  cases hrun : a.run input with
  | ok r => simp [safe_run_agent, hrun]
  | otherError msg => simp [safe_run_agent, hrun]
  | attrError msg =>
      cases h : pyContains "model_dump" msg with
      | false => simp [safe_run_agent, hrun, h]
      | true => cases hc : a.chat input <;> simp [safe_run_agent, hrun, h, hc]

theorem researchTrace_of_nonempty (env : PipelineEnv) (query : String)
    (hq : query ≠ "") :
    (generate env query).researchTrace = some (safe_run_agent env.researchAgent query) := by
  simp only [generate, if_neg hq]
  cases hr : (safe_run_agent env.researchAgent query).result with
  | none => rfl
  | some rr =>
      cases h : pyStartswith rr "Error" with
      | true => simp [h]
      | false =>
          simp only [h, Bool.false_eq_true, if_false]
          cases hs : (safe_run_agent env.scriptAgent rr).result with
          | none => rfl
          | some sc => cases hps : pyStartswith sc "Error" <;> simp [hps]

theorem generate_of_research_err (env : PipelineEnv) (query rr : String)
    (hq : query ≠ "")
    (hr : (safe_run_agent env.researchAgent query).result = some rr)
    (h : pyStartswith rr "Error" = true) :
    generate env query =
      { outcome := .researchError rr,
        researchTrace := some (safe_run_agent env.researchAgent query),
        scriptTrace := none } := by
  simp [generate, if_neg hq, hr, h]

theorem scriptTrace_of_research_ok (env : PipelineEnv) (query rr : String)
    (hq : query ≠ "")
    (hr : (safe_run_agent env.researchAgent query).result = some rr)
    (h : pyStartswith rr "Error" = false) :
    (generate env query).scriptTrace = some (safe_run_agent env.scriptAgent rr) := by
  simp only [generate, if_neg hq, hr, h, Bool.false_eq_true, if_false]
  cases hs : (safe_run_agent env.scriptAgent rr).result with
  | none => rfl
  | some sc => cases hps : pyStartswith sc "Error" <;> simp [hps]

end Helpers

/-! ### Claim theorems -/

/-- C5: for every input string, `safe_run_agent` applied to the
uninitialized-handle marker (`None`) returns exactly
`"Error: Agent not properly initialized"` and makes zero remote calls —
neither `agent.run` nor `agent.model.chat` is invoked. -/
theorem safe_run_agent_uninitialized (input : String) :
    safe_run_agent none input =
      { result := some "Error: Agent not properly initialized",
        runCalls := [], chatCalls := [] } := rfl

/-- C5 witness at a concrete input. -/
theorem safe_run_agent_uninitialized_witness :
    safe_run_agent none "any input" =
      { result := some "Error: Agent not properly initialized",
        runCalls := [], chatCalls := [] } :=
  safe_run_agent_uninitialized "any input"

/-- C10: when `agent.run` returns normally but the response exposes no
`content` field, `safe_run_agent` returns `str(response)` directly on the
primary path: one call to `run`, no fallback `chat` call. -/
theorem safe_run_agent_no_content (a : AgentBehavior) (input : String)
    (r : Response) (hrun : a.run input = .ok r) (hc : r.content = none) :
    safe_run_agent (some a) input =
      { result := some r.asString, runCalls := [input], chatCalls := [] } := by
  simp [safe_run_agent, hrun, hc]

/-- C10 witness: a response with no `content` field yields its `str` form. -/
theorem safe_run_agent_no_content_witness :
    safe_run_agent (some noContentAgent) "topic" =
      { result := some "RunResponse(messages=[])",
        runCalls := ["topic"], chatCalls := [] } :=
  safe_run_agent_no_content noContentAgent "topic"
    { content := none, asString := "RunResponse(messages=[])" } rfl rfl

/-- C4: when `agent.run` raises an `AttributeError` mentioning `model_dump`,
`safe_run_agent` makes exactly one lower-level `agent.model.chat` call with
the same input, and on its success returns `Ok` of the stringified result;
the call traces show one `run` call and one `chat` call, both on `input`. -/
theorem safe_run_agent_fallback (a : AgentBehavior) (input msg s : String)
    (hrun : a.run input = .attrError msg)
    (hmd : pyContains "model_dump" msg = true)
    (hchat : a.chat input = .ok s) :
    safe_run_agent (some a) input =
      { result := some s, runCalls := [input], chatCalls := [input] } := by
  simp [safe_run_agent, hrun, hmd, hchat]

/-- C4 witness: the known defect with a succeeding fallback returns
`"fallback text"` after exactly one `chat` call. -/
theorem safe_run_agent_fallback_witness :
    safe_run_agent (some modelDumpAgent) "topic" =
      { result := some "fallback text",
        runCalls := ["topic"], chatCalls := ["topic"] } :=
  safe_run_agent_fallback modelDumpAgent "topic"
    "'str' object has no attribute 'model_dump'" "fallback text"
    rfl (by decide) rfl

/-- C3 failing-input evaluation: an `AttributeError` whose message does not
contain `model_dump` falls out of the `except AttributeError` branch with no
`return` statement, so `safe_run_agent` returns Python `None`
(modelled `result = none`) rather than an `"Error..."` string. -/
theorem safe_run_agent_attr_fallthrough_none :
    safe_run_agent (some attrFailAgent) "hello" =
      { result := none, runCalls := ["hello"], chatCalls := [] } := by decide

/-- C6: `create_agent` never raises: when the `Agent` constructor raises,
the error is caught and converted to the `None` marker, and when it returns
a handle, that handle is returned unchanged. -/
theorem create_agent_never_raises
    (binder : AgentConfig → Except String AgentBehavior)
    (role : String) (instructions : List String) :
    (∀ msg, binder (agentConfig role instructions) = .error msg →
        create_agent binder role instructions = none)
    ∧ ∀ a, binder (agentConfig role instructions) = .ok a →
        create_agent binder role instructions = some a := by
  constructor
  · intro msg h
    simp [create_agent, h]
  · intro a h
    simp [create_agent, h]

/-- C6 witness: a binder raising on invalid credentials yields `None`. -/
theorem create_agent_never_raises_witness :
    create_agent (fun _ => .error "invalid credentials") "research"
      ["Always include sources and give answer to the point."] = none :=
  (create_agent_never_raises (fun _ => .error "invalid credentials") "research"
    ["Always include sources and give answer to the point."]).1
    "invalid credentials" rfl

/-- C8: every `Err` string `safe_run_agent` produces begins with the
`"Error"` marker: the uninitialized-handle message, the general invocation
failure `"Error: <msg>"`, and the fallback failure
`"Error processing request: <msg>"` all satisfy the `startswith "Error"`
test that downstream logic uses to distinguish success from failure. -/
theorem safe_run_agent_err_starts_with_error (a : AgentBehavior)
    (input msg inner : String) :
    ((safe_run_agent none input).result =
        some "Error: Agent not properly initialized"
      ∧ pyStartswith "Error: Agent not properly initialized" "Error" = true)
    ∧ (a.run input = .otherError msg →
        (safe_run_agent (some a) input).result = some ("Error: " ++ msg)
        ∧ pyStartswith ("Error: " ++ msg) "Error" = true)
    ∧ (a.run input = .attrError msg → pyContains "model_dump" msg = true →
        a.chat input = .chatError inner →
        (safe_run_agent (some a) input).result =
            some ("Error processing request: " ++ inner)
        ∧ pyStartswith ("Error processing request: " ++ inner) "Error" = true) := by
  refine ⟨⟨rfl, by decide⟩, ?_, ?_⟩
  · intro h
    exact ⟨by simp [safe_run_agent, h], pyStartswith_error_colon msg⟩
  · intro h hmd hchat
    exact ⟨by simp [safe_run_agent, h, hmd, hchat],
      pyStartswith_error_processing inner⟩

/-- C8 witness: with both the primary path and the fallback raising, the
returned text is the fallback-failure message, which begins with `"Error"`. -/
theorem safe_run_agent_err_starts_with_error_witness :
    (safe_run_agent (some (bothFailAgent "connection reset")) "topic").result =
        some ("Error processing request: " ++ "connection reset")
      ∧ pyStartswith ("Error processing request: " ++ "connection reset")
          "Error" = true :=
  (safe_run_agent_err_starts_with_error (bothFailAgent "connection reset")
    "topic" "'str' object has no attribute 'model_dump'" "connection reset").2.2
    rfl (by decide) rfl

/-- C1: for a non-empty topic whose research stage returned the text `rr`,
the script stage is invoked if and only if `rr` does not start with
`"Error"`; and whenever `rr` does start with `"Error"` (in particular every
`Err` produced by the research stage), the script stage is never invoked and
the research text is surfaced as the research-stage failure. -/
theorem generate_script_gate (env : PipelineEnv) (query rr : String)
    (hq : query ≠ "")
    (hr : (safe_run_agent env.researchAgent query).result = some rr) :
    ((generate env query).scriptTrace.isSome
        ↔ pyStartswith rr "Error" = false)
    ∧ (pyStartswith rr "Error" = true →
        (generate env query).outcome = .researchError rr
        ∧ (generate env query).scriptTrace = none) := by
  cases h : pyStartswith rr "Error" with
  | false =>
      have hs := scriptTrace_of_research_ok env query rr hq hr h
      constructor
      · rw [hs]
        simp
      · intro hcontra
        exact Bool.noConfusion hcontra
  | true =>
      have hg := generate_of_research_err env query rr hq hr h
      rw [hg]
      constructor
      · simp
      · intro _
        exact ⟨rfl, rfl⟩

/-- C1 witness: a research stage failing with `"Error: rate limited"` ends
the pipeline with that exact message and zero script-stage invocations. -/
theorem generate_script_gate_witness :
    (((generate
          { researchAgent := some (errAgent "rate limited"),
            scriptAgent := some (okAgent "S") }
          "renewable energy").scriptTrace.isSome
        ↔ pyStartswith "Error: rate limited" "Error" = false)
    ∧ (pyStartswith "Error: rate limited" "Error" = true →
        (generate
          { researchAgent := some (errAgent "rate limited"),
            scriptAgent := some (okAgent "S") }
          "renewable energy").outcome = .researchError "Error: rate limited"
        ∧ (generate
          { researchAgent := some (errAgent "rate limited"),
            scriptAgent := some (okAgent "S") }
          "renewable energy").scriptTrace = none)) :=
  generate_script_gate
    { researchAgent := some (errAgent "rate limited"),
      scriptAgent := some (okAgent "S") }
    "renewable energy" "Error: rate limited" (by decide) (by decide)

/-- C2 counterexample: the whitespace-only topic `"   "` is NOT rejected —
Python's `if query:` is true for a non-empty whitespace string, so the
research agent is invoked (its `run` is called with `"   "`) and the
pipeline proceeds to completion instead of yielding the user-input
warning. -/
theorem generate_blank_topic_counterexample :
    (generate
        { researchAgent := some (okAgent "R"), scriptAgent := some (okAgent "S") }
        "   ").researchTrace =
      some { result := some "R", runCalls := ["   "], chatCalls := [] }
    ∧ (generate
        { researchAgent := some (okAgent "R"), scriptAgent := some (okAgent "S") }
        "   ").outcome = .success "R" "S" := by decide

/-- C2 (amended): only the exactly-empty topic `""` is rejected before any
stage with the user-facing warning and no stage invocation; a
whitespace-only topic such as `"   "` passes the truthiness check and the
research stage is invoked with it. -/
theorem generate_empty_topic_only (env : PipelineEnv) :
    generate env "" =
      { outcome := .warning "Please enter a research topic",
        researchTrace := none, scriptTrace := none }
    ∧ (generate env "   ").researchTrace =
        some (safe_run_agent env.researchAgent "   ") := by
  constructor
  · rfl
  · exact researchTrace_of_nonempty env "   " (by decide)

/-- C2 witness at a concrete environment. -/
theorem generate_empty_topic_only_witness :
    generate
        { researchAgent := some (okAgent "R"), scriptAgent := some (okAgent "S") }
        "" =
      { outcome := .warning "Please enter a research topic",
        researchTrace := none, scriptTrace := none }
    ∧ (generate
        { researchAgent := some (okAgent "R"), scriptAgent := some (okAgent "S") }
        "   ").researchTrace =
        some (safe_run_agent (some (okAgent "R")) "   ") :=
  generate_empty_topic_only
    { researchAgent := some (okAgent "R"), scriptAgent := some (okAgent "S") }

/-- C7: when the research stage succeeds with `rr` and the script stage
then returns a text starting with `"Error"`, the pipeline ends in a
script-stage failure that carries both the script error text and the
research text `rr` (which was already rendered to the user): partial
success is preserved. -/
theorem generate_partial_success (env : PipelineEnv) (query rr sc : String)
    (hq : query ≠ "")
    (hr : (safe_run_agent env.researchAgent query).result = some rr)
    (hrok : pyStartswith rr "Error" = false)
    (hs : (safe_run_agent env.scriptAgent rr).result = some sc)
    (hserr : pyStartswith sc "Error" = true) :
    (generate env query).outcome = .scriptError rr sc := by
  simp [generate, if_neg hq, hr, hrok, hs, hserr]

/-- C7 witness: research succeeds with `"R"`, script fails with
`"Error: timeout"`; the outcome carries both texts. -/
theorem generate_partial_success_witness :
    (generate
        { researchAgent := some (okAgent "R"),
          scriptAgent := some (errAgent "timeout") }
        "renewables").outcome = .scriptError "R" "Error: timeout" :=
  generate_partial_success
    { researchAgent := some (okAgent "R"),
      scriptAgent := some (errAgent "timeout") }
    "renewables" "R" "Error: timeout"
    (by decide) (by decide) (by decide) (by decide) (by decide)

/-- C9: when the research stage succeeds with text `rr`, the script stage is
invoked on exactly `rr`: its trace is `safe_run_agent scriptAgent rr`, and
for an initialized script agent the single `run` call receives `rr`
verbatim. -/
theorem generate_verbatim_handoff (env : PipelineEnv) (query rr : String)
    (hq : query ≠ "")
    (hr : (safe_run_agent env.researchAgent query).result = some rr)
    (hrok : pyStartswith rr "Error" = false) :
    (generate env query).scriptTrace = some (safe_run_agent env.scriptAgent rr)
    ∧ ∀ a : AgentBehavior, env.scriptAgent = some a →
        (safe_run_agent env.scriptAgent rr).runCalls = [rr] := by
  refine ⟨scriptTrace_of_research_ok env query rr hq hr hrok, ?_⟩
  intro a ha
  rw [ha]
  exact runCalls_of_some a rr

/-- C9 witness: research text `"R"` is passed verbatim to the script agent. -/
theorem generate_verbatim_handoff_witness :
    (generate
        { researchAgent := some (okAgent "R"), scriptAgent := some (okAgent "S") }
        "my topic").scriptTrace =
      some (safe_run_agent (some (okAgent "S")) "R")
    ∧ ∀ a : AgentBehavior, some (okAgent "S") = some a →
        (safe_run_agent (some (okAgent "S")) "R").runCalls = ["R"] :=
  generate_verbatim_handoff
    { researchAgent := some (okAgent "R"), scriptAgent := some (okAgent "S") }
    "my topic" "R" (by decide) (by decide) (by decide)

end App
